import Mathlib

/-!
Shallow embedding of the kcov-rs crate (src/lib.rs), a small Rust binding to
the Linux kcov per-thread coverage-tracing device.

Modelling conventions:
* Pointers are byte addresses, represented as `Nat`.
* The mapped region is a memory `Mem : Nat → Nat` read at the byte address of
  the first byte of a machine word.
* Kernel interactions (syscalls, the drop-triggered close of an owned
  descriptor, process exit) are `Event`s; each lifecycle function of the crate
  is embedded as the list of events it emits, in program order.
* All constants and strings are taken literally from src/lib.rs; the crate
  targets 64-bit Linux, so `mem::size_of::<usize>()` is 8.
-/

/-- `KCOV` (src/lib.rs line 12): the path of the kcov device file. -/
def KCOV : String := "/sys/kernel/debug/kcov"

/-- `KCOV_BUF_LEN` (src/lib.rs line 13): the byte size of the trace buffer
mapping, `1024 * 1024 * 8`. -/
def KCOV_BUF_LEN : Nat := 1024 * 1024 * 8

/-- `mem::size_of::<usize>()` on the 64-bit targets this crate supports. -/
def USIZE_BYTES : Nat := 8

/-- `mem::size_of::<c_void>()`: Rust defines `std::os::raw::c_void` as a
one-byte type, so pointer arithmetic on `NonNull<c_void>` advances one BYTE
per unit, not one machine word. -/
def CVOID_SIZE : Nat := 1

/-- `exitcode::OSERR` (sysexits EX_OSERR = 71), the exit status passed to the
`exits` macro (src/lib.rs lines 20-29) at every failure site. -/
def OSERR : Nat := 71

/-- The three kcov ioctl requests (src/lib.rs lines 16-18 and 31-51):
`KCOV_INIT_TRACE` carries the buffer capacity in machine words; `KCOV_ENABLE`
and `KCOV_DISABLE` carry no payload. -/
inductive Ioctl
  | initTrace (words : Nat)
  | enable
  | disable
deriving DecidableEq

/-- One observable action of the crate: a kernel interaction, an access to the
shared buffer, the run of the caller-supplied work closure, or a process
exit. -/
inductive Event
  | devOpen (fd : Nat)
  | ioctl (fd : Nat) (req : Ioctl)
  | mmapEv (fd bytes offset : Nat) (shared rw : Bool)
  | closeEv (fd : Nat)
  | munmapEv (bytes : Nat)
  | writeCount (v : Nat)
  | readView
  | workRun
  | exitEv (code : Nat)
deriving DecidableEq

def isDevOpen : Event → Bool
  | .devOpen _ => true
  | _ => false

def isInit : Event → Bool
  | .ioctl _ (.initTrace _) => true
  | _ => false

def isEnable : Event → Bool
  | .ioctl _ .enable => true
  | _ => false

def isDisable : Event → Bool
  | .ioctl _ .disable => true
  | _ => false

def isMmap : Event → Bool
  | .mmapEv _ _ _ _ _ => true
  | _ => false

def isClose : Event → Bool
  | .closeEv _ => true
  | _ => false

def isMunmap : Event → Bool
  | .munmapEv _ => true
  | _ => false

def isWrite0 : Event → Bool
  | .writeCount 0 => true
  | _ => false

def isReadView : Event → Bool
  | .readView => true
  | _ => false

/-- The mapped region as a memory of machine words indexed by the byte address
of the first byte of the word. -/
abbrev Mem := Nat → Nat

/-- A machine-word store through a pointer, `*(p as *mut usize) = v`. -/
def writeWord (m : Mem) (a v : Nat) : Mem :=
  fun x => if x = a then v else m x

/-- `CovHandle` (src/lib.rs lines 53-58). The fields `pcs`, `len` and `mem`
are `NonNull<c_void>` pointers, modelled as byte addresses. -/
structure CovHandle where
  fd : Nat
  pcs : Nat
  len : Nat
  mem : Nat
deriving DecidableEq

/-- The pointer setup of `open` (src/lib.rs lines 81-84):
`let cover = mem; let len = cover; let pcs = cover.add(1);` where
`cover : NonNull<c_void>`. `NonNull::<T>::add(count)` offsets by
`count * size_of::<T>()` bytes and `size_of::<c_void>() = 1`, so `pcs` is the
base address plus ONE BYTE. `base` is the address returned by `mmap`. -/
def openHandle (fd base : Nat) : CovHandle :=
  { fd := fd, pcs := base + 1 * CVOID_SIZE, len := base, mem := base }

/-- A Rust slice `&[usize]`: a data pointer (byte address) and an element
count, as produced by `std::slice::from_raw_parts`. -/
structure Slice where
  dataAddr : Nat
  length : Nat
deriving DecidableEq

/-- `CovHandle::covers` (src/lib.rs lines 110-115):
`let len = self.len; std::slice::from_raw_parts(self.pcs.as_ptr() as _, len.as_ptr() as _)`.
The second argument of `from_raw_parts` is the slice length, a `usize`; the
expression supplied is `len.as_ptr() as _`, a pointer-to-integer cast of the
count-slot POINTER itself. No load from memory happens: the resulting length
is the address stored in the `len` field, not the word stored at it. -/
def covers (h : CovHandle) : Slice :=
  { dataAddr := h.pcs, length := h.len }

/-- Modelled from the spec (section 4.1 step 5 and the Collected View entry of
section 3), for comparison with `covers`: read the value `n` stored in word 0
of the region and return a view of the first `n` words starting one machine
word past the region base. -/
def coversSpec (m : Mem) (h : CovHandle) : Slice :=
  { dataAddr := h.mem + USIZE_BYTES, length := m h.mem }

/-- `CovHandle::clear` (src/lib.rs lines 96-100):
`*(self.len.as_ptr() as *mut usize) = 0`, a machine-word store of 0 through
the `len` pointer. -/
def clear (h : CovHandle) (m : Mem) : Mem := writeWord m h.len 0

/-- The events of a successful `open()` (src/lib.rs lines 60-86), in program
order: `fcntl::open(KCOV, O_RDWR)`, the init ioctl with capacity
`KCOV_BUF_LEN / mem::size_of::<usize>()` (a word count), then
`mman::mmap(None, KCOV_BUF_LEN, PROT_READ|PROT_WRITE, MAP_SHARED, fd, 0)`.
The final `closeEv` is the drop of the temporary `OwnedFd::from_raw_fd(fd)`
built on line 76: nix `mman::mmap` takes its descriptor argument by value
(`f : F` with `F : AsFd`), so that `OwnedFd` is consumed and dropped when the
`mmap` call finishes, and `OwnedFd::drop` closes the raw descriptor. -/
def openTrace (fd : Nat) : List Event :=
  [ .devOpen fd,
    .ioctl fd (.initTrace (KCOV_BUF_LEN / USIZE_BYTES)),
    .mmapEv fd KCOV_BUF_LEN 0 true true,
    .closeEv fd ]

/-- The events of one `CovHandle::collect` call (src/lib.rs lines 89-94):
`self.clear()` stores 0 in the count slot, `self.enable()` issues the enable
ioctl and returns the guard `_g`, then `call()` runs. On the normal path the
tail expression `self.covers()` is evaluated to build the returned view and
only then, at the end of the function body, `_g` is dropped, issuing the
disable ioctl (Rust drops the locals of a body after the tail expression has
been evaluated). If `call()` unwinds, `_g` is dropped during the unwind, so
the disable ioctl is still issued and `covers` is never reached. -/
def collectTrace (fd : Nat) (unwinds : Bool) : List Event :=
  [.writeCount 0, .ioctl fd .enable, .workRun] ++
    (if unwinds then [.ioctl fd .disable]
     else [.readView, .ioctl fd .disable])

/-- The events of `<CovHandle as Drop>::drop` (src/lib.rs lines 118-126):
`munmap(self.mem, KCOV_BUF_LEN)` first; on its failure the `exits` macro
calls `std::process::exit(exitcode::OSERR)`, so `close(self.fd)` is never
reached; on success `close(self.fd)` runs and its failure likewise exits the
process. -/
def dropTrace (fd : Nat) (munmapFails closeFails : Bool) : List Event :=
  .munmapEv KCOV_BUF_LEN ::
    (if munmapFails then [.exitEv OSERR]
     else .closeEv fd ::
       (if closeFails then [.exitEv OSERR] else []))

/-- A whole successful handle lifetime: one `open()`, `n` normally completing
`collect` calls, then the drop of the handle with both teardown syscalls
succeeding. -/
def lifecycleTrace (fd n : Nat) : List Event :=
  openTrace fd ++ (List.replicate n (collectTrace fd false)).flatten ++
    dropTrace fd false false

/-- The kcov tracing state of the thread, folded over events: the enable
ioctl turns it on, the disable ioctl turns it off, everything else leaves it
unchanged. -/
def tracingStep (b : Bool) (e : Event) : Bool :=
  match e with
  | .ioctl _ .enable => true
  | .ioctl _ .disable => false
  | _ => b

/-- Tracing state after a list of events, starting from state `b`. -/
def tracingAfter (b : Bool) (tr : List Event) : Bool :=
  tr.foldl tracingStep b

/-- The seven fallible steps of the crate (src/lib.rs lines 60-86, 102-108,
118-126 and 132-139): device open, init ioctl, mmap, enable ioctl, disable
ioctl, munmap, close. -/
inductive Step
  | devOpen
  | initCtl
  | mapCtl
  | enableCtl
  | disableCtl
  | unmapCtl
  | closeCtl
deriving DecidableEq

/-- All seven fallible steps. -/
def stepList : List Step :=
  [.devOpen, .initCtl, .mapCtl, .enableCtl, .disableCtl, .unmapCtl, .closeCtl]

/-- The message each failure site passes to the `exits` macro, with the
format arguments of the `eprintln` already substituted except for the
trailing system error (src/lib.rs lines 62, 69, 79, 105, 136, 122, 124). -/
def msgStem : Step → String
  | .devOpen => "Fail to open " ++ KCOV ++ ": "
  | .initCtl => "Fail to init kcov trace: "
  | .mapCtl => "Fail to map kcov: "
  | .enableCtl => "Fail to enable kcov trace: "
  | .disableCtl => "Fail to disable kcov trace: "
  | .unmapCtl => "Fail to munmap kcov: "
  | .closeCtl => "Fail to close: "

/-- What the `exits` macro (src/lib.rs lines 20-29) does: print a message to
stderr and terminate the whole process with the given status. -/
structure Fatal where
  code : Nat
  msg : String
deriving DecidableEq

/-- The fatal outcome a failing step produces: exit status `exitcode::OSERR`
and the step message with the system error appended. -/
def fatalOf (s : Step) (e : String) : Fatal :=
  { code := OSERR, msg := msgStem s ++ e }

/-- The outcome of running one fallible step: if the underlying call
succeeds (`err = none`) execution continues; if it fails with system error
`e`, `unwrap_or_else` enters the `exits` closure and the process terminates.
No variant carries an error value back to the caller. -/
def stepRun (s : Step) (err : Option String) : Except Fatal Unit :=
  match err with
  | none => .ok ()
  | some e => .error (fatalOf s e)

/-- Claim C6: `open()` performs its kernel interactions in the strict order
device-open, then the init ioctl with capacity `KCOV_BUF_LEN / USIZE_BYTES`
machine words (a word count, 1048576, not the byte count), then a shared
read-write mapping of `KCOV_BUF_LEN` bytes at offset 0 backed by the device
descriptor; the trace holds exactly one init request and exactly one mapping,
with the init strictly before the mapping, so the init request is never
issued after the mapping. -/
theorem c6_open_init_map_order (fd : Nat) :
    (openTrace fd).findIdx isDevOpen = 0 ∧
    (openTrace fd).findIdx isDevOpen < (openTrace fd).findIdx isInit ∧
    (openTrace fd).findIdx isInit < (openTrace fd).findIdx isMmap ∧
    (openTrace fd).filter isInit
      = [.ioctl fd (.initTrace (KCOV_BUF_LEN / USIZE_BYTES))] ∧
    KCOV_BUF_LEN / USIZE_BYTES = 1048576 ∧
    (openTrace fd).filter isMmap = [.mmapEv fd KCOV_BUF_LEN 0 true true] := by
  refine ⟨?_, ?_, ?_, ?_, by decide, ?_⟩ <;>
    simp [openTrace, isDevOpen, isInit, isMmap, List.findIdx_cons]

/-- Claim C7: in every `collect` call the count slot (word 0 of the mapped
region, where the `len` pointer of the handle points) is written to 0 before
the enable ioctl is issued, so immediately after the reset step the stored
count is 0 whatever count `m` a prior call left behind. -/
theorem c7_reset_before_enable (fd base : Nat) (m : Mem) :
    (openHandle fd base).len = (openHandle fd base).mem ∧
    clear (openHandle fd base) m base = 0 ∧
    (collectTrace fd false).findIdx isWrite0
      < (collectTrace fd false).findIdx isEnable ∧
    (collectTrace fd true).findIdx isWrite0
      < (collectTrace fd true).findIdx isEnable := by
  refine ⟨rfl, ?_, ?_, ?_⟩
  · simp [clear, openHandle, writeWord]
  · simp [collectTrace, isWrite0, isEnable, List.findIdx_cons]
  · simp [collectTrace, isWrite0, isEnable, List.findIdx_cons]

/-- Claim C8: every `collect` call issues exactly one disable ioctl — the
guard is dropped exactly once, whether the work closure returns normally or
unwinds — and after the events of the call the thread tracing state is off,
from whatever state `b` it started in; hence repeated `collect` calls never
leave tracing enabled at return. -/
theorem c8_one_disable_per_collect (fd : Nat) (u b : Bool) :
    (collectTrace fd u).countP isDisable = 1 ∧
    tracingAfter b (collectTrace fd u) = false := by
  cases u <;>
    simp [collectTrace, tracingAfter, tracingStep, isDisable, List.countP_cons]

/-- Claim C5, counterexample: the claim asserts that in a `collect` call the
disable ioctl happens before the view is extracted; in the trace of a
normally completing `collect` (concrete descriptor 3) the disable ioctl does
NOT precede the `covers` read — the guard drops only after the tail
expression has been evaluated. -/
theorem c5_disable_not_before_read :
    ¬ ((collectTrace 3 false).findIdx isDisable
        < (collectTrace 3 false).findIdx isReadView) := by
  decide

/-- Claim C5, amended: in every normally completing `collect` call the view
over the recorded addresses is extracted first (the single `covers` read
happens while tracing is still enabled) and the single disable ioctl is
issued afterwards, when the guard is dropped at the end of the function body,
still before `collect` returns to its caller. -/
theorem c5_read_then_disable (fd : Nat) :
    (collectTrace fd false).findIdx isReadView
      < (collectTrace fd false).findIdx isDisable ∧
    (collectTrace fd false).countP isReadView = 1 ∧
    (collectTrace fd false).countP isDisable = 1 := by
  refine ⟨?_, ?_, ?_⟩ <;>
    simp [collectTrace, isReadView, isDisable, List.findIdx_cons,
      List.countP_cons]

/-- Claim C4, counterexample: the claim asserts the close step is attempted
even when the unmap step fails; in the teardown trace with a failing munmap
(concrete descriptor 3) the munmap is attempted but no close ever is — the
process exits first. -/
theorem c4_close_skipped_on_munmap_failure :
    (dropTrace 3 true false).countP isMunmap = 1 ∧
    (dropTrace 3 true false).countP isClose = 0 ∧
    Event.exitEv OSERR ∈ dropTrace 3 true false := by
  decide

/-- Claim C4, amended: at teardown the unmap step is attempted first; the
close step is attempted (exactly once, after the unmap) only when the unmap
succeeds; when the unmap fails the process terminates with exit status
`OSERR` and the close step is not attempted. -/
theorem c4_teardown_order (fd : Nat) (cf : Bool) :
    (dropTrace fd false cf).countP isMunmap = 1 ∧
    (dropTrace fd false cf).countP isClose = 1 ∧
    (dropTrace fd false cf).findIdx isMunmap
      < (dropTrace fd false cf).findIdx isClose ∧
    (dropTrace fd true cf).countP isClose = 0 ∧
    Event.exitEv OSERR ∈ dropTrace fd true cf := by
  cases cf <;>
    simp [dropTrace, isMunmap, isClose, List.countP_cons, List.findIdx_cons]

/-- Claim C1 (code bug, evaluated): take a handle whose mapping starts at
byte address 4096 and a buffer whose count word (word 0) holds 5. The view
returned by `covers` has length 4096 — the address of the count slot, because
the code casts the `len` POINTER to `usize` instead of loading through it —
not the stored count 5 the claim requires, and the whole view differs from
the spec-modelled one in both data pointer and length. -/
theorem c1_covers_uses_address_as_length :
    (covers (openHandle 3 4096)).length = 4096 ∧
    writeWord (fun _ => 0) 4096 5 (openHandle 3 4096).mem = 5 ∧
    (covers (openHandle 3 4096)).length
      ≠ writeWord (fun _ => 0) 4096 5 (openHandle 3 4096).mem ∧
    covers (openHandle 3 4096)
      ≠ coversSpec (writeWord (fun _ => 0) 4096 5) (openHandle 3 4096) := by
  refine ⟨rfl, ?_, ?_, ?_⟩ <;> decide

/-- Claim C2 (code bug, evaluated): over a whole lifetime (open, one collect,
drop; concrete descriptor 3) the device descriptor is the target of TWO close
operations, not one — the first already inside `open()` (the dropped
temporary `OwnedFd` passed to `mmap`), the second at teardown — so it is not
the case that the descriptor is closed exactly once at teardown. -/
theorem c2_fd_closed_twice :
    (openTrace 3).countP isClose = 1 ∧
    (collectTrace 3 false).countP isClose = 0 ∧
    (dropTrace 3 false false).countP isClose = 1 ∧
    (lifecycleTrace 3 1).countP isClose = 2 := by
  decide

/-- Claim C3 (code bug, evaluated): for a handle whose mapping starts at byte
address 4096, the entries pointer computed by `open` is 4097 — one BYTE past
the region base, because the `add(1)` is performed on a `c_void` pointer —
and not `4096 + USIZE_BYTES = 4104`, one machine word past the base as the
claim requires. -/
theorem c3_pcs_off_by_one_byte :
    (openHandle 3 4096).pcs = 4096 + CVOID_SIZE ∧
    (openHandle 3 4096).pcs ≠ 4096 + USIZE_BYTES := by
  decide

/-- Claim C9: every one of the seven fallible steps, on failure with any
underlying system error `e`, produces a fatal outcome and never an error
value returned to the caller: exit status 71 (`exitcode::OSERR`, the
operating-system-error status) and a message made of a step-specific stem
with the system error appended; the seven stems all start with a failure
phrase naming the step and are pairwise distinct. -/
theorem c9_fatal_error_reporting (s : Step) (e : String) :
    (fatalOf s e).code = 71 ∧
    (fatalOf s e).msg = msgStem s ++ e ∧
    (∃ r, msgStem s = "Fail to " ++ r) ∧
    stepRun s (some e) = Except.error (fatalOf s e) ∧
    (stepList.map msgStem).Nodup ∧
    stepList.length = 7 := by
  refine ⟨rfl, rfl, ?_, rfl, by decide, rfl⟩
  cases s
  · exact ⟨"open " ++ KCOV ++ ": ", by decide⟩
  · exact ⟨"init kcov trace: ", by decide⟩
  · exact ⟨"map kcov: ", by decide⟩
  · exact ⟨"enable kcov trace: ", by decide⟩
  · exact ⟨"disable kcov trace: ", by decide⟩
  · exact ⟨"munmap kcov: ", by decide⟩
  · exact ⟨"close: ", by decide⟩
